import Mathlib

/-!
Verification of the RDMA device-inventory core (`ruapc-rdma-sys`): a shallow
embedding of the value-type codecs (WRID, Guid), the GID classifier, and the
device enumeration / filter pipeline, with proofs of their stated properties.

Machine integers are embedded as `Nat` with explicit bounds (`< 2^64` for
`u64`, etc.); panics and parse failures are embedded as `Option`/`Except`.
-/

/-! ## WRID: work-request identifier codec (src/types/wrid.rs) -/

/-- Type of work completion (`WCType`, wrid.rs). -/
inductive WCType where
  | Recv
  | SendData
  | SendImm
deriving DecidableEq

/-- The `#[repr(u8)]` discriminant of `WCType` (`wc_type as u64`). -/
def WCType.toU64 : WCType → Nat
  | .Recv => 0
  | .SendData => 1
  | .SendImm => 2

/-- `WRID::TYPE_BITS`: number of bits used for the id. -/
def WRID.TYPE_BITS : Nat := 62

/-- `WRID::TYPE_MASK = ((1 << (u64::BITS - TYPE_BITS)) - 1) << TYPE_BITS`. -/
def WRID.TYPE_MASK : Nat := ((1 <<< (64 - WRID.TYPE_BITS)) - 1) <<< WRID.TYPE_BITS

/-- `WRID::new(wc_type, id)`: asserts `id & TYPE_MASK == 0` (panic embedded as
`none`), then packs `(wc_type as u64) << TYPE_BITS | id`. -/
def WRID.new (wc_type : WCType) (id : Nat) : Option Nat :=
  if id &&& WRID.TYPE_MASK = 0 then
    some ((WCType.toU64 wc_type <<< WRID.TYPE_BITS) ||| id)
  else
    none

/-- `WRID::get_type`: matches `(self.0 & TYPE_MASK) >> TYPE_BITS` against
0/1/2 (the Rust integer match is embedded as sequential equality tests); the
`unreachable!()` arm is embedded as `none`. -/
def WRID.get_type (w : Nat) : Option WCType :=
  if (w &&& WRID.TYPE_MASK) >>> WRID.TYPE_BITS = 0 then some .Recv
  else if (w &&& WRID.TYPE_MASK) >>> WRID.TYPE_BITS = 1 then some .SendData
  else if (w &&& WRID.TYPE_MASK) >>> WRID.TYPE_BITS = 2 then some .SendImm
  else none

/-- `WRID::get_id`: `self.0 & !TYPE_MASK` (bitwise not on `u64`). -/
def WRID.get_id (w : Nat) : Nat := w &&& ((2 ^ 64 - 1) ^^^ WRID.TYPE_MASK)

/-! ## Guid: 64-bit device identifier codec (src/types/guid.rs) -/

/-- Byte-order reversal of a `u64` (`u64::from_be` / `u64::to_be` on a
little-endian host; the two are the same involution). -/
def bswap64 (x : Nat) : Nat :=
  x / 2 ^ 56 % 256 + x / 2 ^ 48 % 256 * 2 ^ 8 + x / 2 ^ 40 % 256 * 2 ^ 16 +
  x / 2 ^ 32 % 256 * 2 ^ 24 + x / 2 ^ 24 % 256 * 2 ^ 32 + x / 2 ^ 16 % 256 * 2 ^ 40 +
  x / 2 ^ 8 % 256 * 2 ^ 48 + x % 256 * 2 ^ 56

/-- Lower-case hexadecimal digit character, as produced by `{:04x}`. -/
def to_hex_digit (n : Nat) : Char :=
  if n < 10 then Char.ofNat (48 + n) else Char.ofNat (87 + n)

/-- One zero-padded `{:04x}` group of a value below 2^16. -/
def toHex4 (n : Nat) : List Char :=
  [to_hex_digit (n / 4096 % 16), to_hex_digit (n / 256 % 16),
   to_hex_digit (n / 16 % 16), to_hex_digit (n % 16)]

/-- `Display for Guid`: convert the stored (network-order) value with
`u64::from_be`, then format `(guid >> 48) & 0xFFFF` .. `guid & 0xFFFF` as four
`{:04x}` groups joined by ':'. -/
def guid_to_text (stored : Nat) : List Char :=
  let guid := bswap64 stored
  toHex4 ((guid >>> 48) &&& 0xFFFF) ++ ':' ::
  (toHex4 ((guid >>> 32) &&& 0xFFFF) ++ ':' ::
  (toHex4 ((guid >>> 16) &&& 0xFFFF) ++ ':' ::
  toHex4 (guid &&& 0xFFFF)))

/-- `char::to_digit(16).is_some()`: hexadecimal digit test (0-9, a-f, A-F). -/
def is_hex_digit (c : Char) : Bool :=
  (48 ≤ c.toNat && c.toNat ≤ 57) || (97 ≤ c.toNat && c.toNat ≤ 102) ||
  (65 ≤ c.toNat && c.toNat ≤ 70)

/-- `char::to_digit(16)` digit value (meaningful when `is_hex_digit`). -/
def hex_val (c : Char) : Nat :=
  if c.toNat ≤ 57 then c.toNat - 48
  else if c.toNat ≤ 70 then c.toNat - 55
  else c.toNat - 87

/-- The accumulating digit loop of `u16::from_str_radix(s, 16)`: per character,
checked `acc * 16 + digit`; a non-digit or overflow past `u16::MAX` is an
error (`none`). -/
def hex_accum : List Char → Nat → Option Nat
  | [], acc => some acc
  | c :: cs, acc =>
    if is_hex_digit c then
      if acc * 16 + hex_val c < 65536 then hex_accum cs (acc * 16 + hex_val c)
      else none
    else none

/-- `u16::from_str_radix(s, 16)`: empty input is an error; a leading `+` is
stripped (a `-` is not a valid digit for an unsigned type, and `"+"` alone is
an error); then the checked digit loop runs over the remaining characters. -/
def from_str_radix_16 (s : List Char) : Option Nat :=
  match s with
  | [] => none
  | c :: rest =>
    if c = '+' then
      match rest with
      | [] => none
      | _ :: _ => hex_accum rest 0
    else hex_accum (c :: rest) 0

/-- `str::split(':')` on the character list: `:`-separated chunks (the empty
string yields one empty chunk; adjacent separators yield empty chunks). -/
def split_colon : List Char → List (List Char)
  | [] => [[]]
  | c :: rest =>
    if c = ':' then [] :: split_colon rest
    else
      match split_colon rest with
      | [] => [[c]]
      | g :: gs => (c :: g) :: gs

/-- `Deserialize for Guid`: split on ':', require exactly 4 parts (else
"invalid GUID format"), parse each part with `u16::from_str_radix(_, 16)`
(else "invalid hexadecimal value"), pack each value at `48 - i*16`, and store
`guid.to_be()`. -/
def guid_from_text (s : List Char) : Option Nat :=
  match split_colon s with
  | [p0, p1, p2, p3] =>
    match from_str_radix_16 p0, from_str_radix_16 p1,
          from_str_radix_16 p2, from_str_radix_16 p3 with
    | some v0, some v1, some v2, some v3 =>
        some (bswap64 ((v0 <<< 48) ||| (v1 <<< 32) ||| (v2 <<< 16) ||| (v3 <<< 0)))
    | _, _, _, _ => none
  | _ => none

/-- Modelled from the spec's words, for comparison with `guid_from_text`:
"exactly four colon-separated groups of 1-4 hexadecimal digits". -/
def wellFormedGuidText (s : List Char) : Bool :=
  (split_colon s).length == 4 &&
  (split_colon s).all (fun p => 1 ≤ p.length && p.length ≤ 4 && p.all is_hex_digit)

/-! ## Error taxonomy (src/error.rs) and shared device types -/

/-- `ErrorKind` (error.rs): the closed set of failure categories plus the
`Unknown` escape hatch. -/
inductive ErrorKind where
  | AllocMemoryFailed
  | IBGetDeviceListFail
  | IBDeviceNotFound
  | IBOpenDeviceFail
  | IBQueryDeviceFail
  | IBQueryGidFail
  | IBQueryGidTypeFail
  | IBQueryPortFail
  | IBAllocPDFail
  | IBCreateCompChannelFail
  | IBSetCompChannelNonBlockFail
  | IBGetCompQueueEventFail
  | IBCreateCompQueueFail
  | IBReqNotifyCompQueueFail
  | IBPollCompQueueFail
  | IBRegMemoryRegionFail
  | IBCreateQueuePairFail
  | IBModifyQueuePairFail
  | IBPostRecvFailed
  | IBPostSendFailed
  | IBSetNonBlockFailed
  | InsufficientBuffer
  | Unknown (msg : List Char)
deriving DecidableEq

/-- `Error` (error.rs): kind plus free-text message. -/
structure RError where
  kind : ErrorKind
  msg : List Char
deriving DecidableEq

/-- `LinkLayer` (src/types/link_layer.rs): closed enumeration
{unspecified = 0, InfiniBand = 1, Ethernet = 4}. -/
inductive LinkLayer where
  | Unspecified
  | InfiniBand
  | Ethernet
deriving DecidableEq

/-- `GidType` (src/config.rs): transport-type tag of a network address;
`Other` preserves the unrecognized raw classification string. -/
inductive GidType where
  | IB
  | RoCEv1
  | RoCEv2
  | Other (s : List Char)
deriving DecidableEq

/-! ## GID classifier (src/devices/raw.rs) -/

/-- Sysfs sentinel for native-InfiniBand-or-RoCEv1 classification. -/
def GID_TYPE_IB_ROCE_V1 : List Char := "IB/RoCE v1\n".toList

/-- Sysfs sentinel for RoCEv2 classification. -/
def GID_TYPE_ROCE_V2 : List Char := "RoCE v2\n".toList

/-- `char::is_whitespace` restricted to the ASCII range (the sysfs
classification strings are ASCII): space, \t, \n, vertical tab, form feed,
\r. -/
def is_whitespace_char (c : Char) : Bool :=
  c = ' ' || c = '\t' || c = '\n' || c = '\x0b' || c = '\x0c' || c = '\r'

/-- `str::trim`: strip whitespace from both ends. -/
def trim (s : List Char) : List Char :=
  ((s.dropWhile is_whitespace_char).reverse.dropWhile is_whitespace_char).reverse

/-- `RawContext::query_gid_type` (raw.rs): the filesystem read of
`ports/<port>/gid_attrs/types/<index>` is passed in as `read_result`
(`.error msg` embeds an unreadable file together with the I/O error message
`err.to_string()`); the link layer comes from `port_attr.link_layer`. -/
def query_gid_type (read_result : Except (List Char) (List Char))
    (link_layer : LinkLayer) : Except RError GidType :=
  match read_result with
  | .ok content =>
    if content = GID_TYPE_IB_ROCE_V1 then
      match link_layer with
      | .InfiniBand => .ok .IB
      | .Ethernet => .ok .RoCEv1
      | _ => .ok (.Other (trim content))
    else if content = GID_TYPE_ROCE_V2 then .ok .RoCEv2
    else .ok (.Other (trim content))
  | .error err => .error ⟨.IBQueryGidTypeFail, err⟩

/-! ## GID value and query (src/types/gid.rs, src/devices/raw.rs) -/

/-- `ibv_gid` viewed through its `global` union member: the two raw `u64`
fields exactly as stored in the 16-byte value (network byte order); the field
for the subnet is the first 8 bytes, `interface_id` the second 8 bytes. -/
structure IbvGid where
  subnet_prefix_be : Nat
  interface_id : Nat
deriving DecidableEq

/-- `ibv_gid::is_null`: `interface_id() == 0`, where `interface_id()` is
`u64::from_be(global.interface_id)`. -/
def IbvGid.is_null (g : IbvGid) : Bool := bswap64 g.interface_id == 0

/-- `ibv_gid::as_bits`: `u128::from_be_bytes(raw)`, i.e. the big-endian
interpretation of the 16 raw bytes. -/
def IbvGid.as_bits (g : IbvGid) : Nat :=
  bswap64 g.subnet_prefix_be * 2 ^ 64 + bswap64 g.interface_id

/-- `Ipv6Addr::is_unicast_link_local` of the 128-bit value:
`(segments()[0] & 0xffc0) == 0xfe80`. -/
def is_unicast_link_local (bits : Nat) : Bool :=
  ((bits >>> 112) &&& 0xffc0) == 0xfe80

/-- `RawContext::query_gid` (raw.rs): `ret` is the return code of
`ibv_query_gid` and `gid` its out-parameter; `errno_msg` is the OS error
string captured by `with_errno`. Succeeds iff `ret == 0 && !gid.is_null()`. -/
def query_gid (ret : Int) (gid : IbvGid) (errno_msg : List Char) :
    Except RError IbvGid :=
  if ret = 0 ∧ gid.is_null = false then .ok gid
  else .error ⟨.IBQueryGidFail, errno_msg⟩

/-! ## Device enumeration and filter pipeline (src/devices/device.rs) -/

/-- `ibv_port_state::IBV_PORT_ACTIVE` (libibverbs ABI value 4). -/
def IBV_PORT_ACTIVE : Nat := 4

/-- The fields of `ibv_port_attr` the pipeline reads: `state` (raw
`ibv_port_state` value), `link_layer`, and `gid_tbl_len` (a C `int`). -/
structure PortAttr where
  state : Nat
  link_layer : LinkLayer
  gid_tbl_len : Int
deriving DecidableEq

/-- The field of `ibv_device_attr` the pipeline reads: `phys_port_cnt`. -/
structure DeviceAttr where
  phys_port_cnt : Nat
deriving DecidableEq

/-- `DeviceConfig` (src/config.rs); the two `HashSet`s are embedded as lists
queried only through emptiness and membership. -/
structure DeviceConfig where
  device_filter : List (List Char)
  gid_type_filter : List GidType
  skip_inactive_port : Bool
  roce_v2_skip_link_local_addr : Bool

/-- `Gid` record (src/devices/types.rs). -/
structure Gid where
  index : Nat
  gid : IbvGid
  gid_type : GidType
deriving DecidableEq

/-- `Port` record (src/devices/types.rs). -/
structure Port where
  port_num : Nat
  port_attr : PortAttr
  gids : List Gid
deriving DecidableEq

/-- The verbs/filesystem environment a `Device`'s context queries during
`update_attr`: outcomes of `ibv_query_device` and `ibv_query_port`, the
return code and out-parameter of `ibv_query_gid` per port and table index,
the captured errno string, and the sysfs read backing `query_gid_type`. -/
structure ContextEnv where
  query_device : Except RError DeviceAttr
  query_port : Nat → Except RError PortAttr
  gid_raw : Nat → Nat → Int × IbvGid
  errno : List Char
  gid_type_file : Nat → Nat → Except (List Char) (List Char)

/-- Loop body of `Device::collect_port_gids` for one address-table index: a
failed `query_gid` or `query_gid_type` is `continue` (`none`); then the
address-type filter; then the RoCEv2 link-local skip; otherwise the `Gid` is
pushed. -/
def gid_at (env : ContextEnv) (port_num : Nat) (port_attr : PortAttr)
    (config : DeviceConfig) (gid_index : Nat) : Option Gid :=
  match query_gid (env.gid_raw port_num gid_index).1
      (env.gid_raw port_num gid_index).2 env.errno with
  | .error _ => none
  | .ok gid =>
    match query_gid_type (env.gid_type_file port_num gid_index)
        port_attr.link_layer with
    | .error _ => none
    | .ok gid_type =>
      if config.gid_type_filter.isEmpty = false ∧
          gid_type ∉ config.gid_type_filter then none
      else if config.roce_v2_skip_link_local_addr = true ∧
          gid_type = GidType.RoCEv2 ∧
          is_unicast_link_local gid.as_bits = true then none
      else some ⟨gid_index, gid, gid_type⟩

/-- `Device::collect_port_gids`: loop over `0 .. (gid_tbl_len as u16)`
(the cast truncates the C `int` to its low 16 bits), pushing the surviving
addresses in index order. -/
def collect_port_gids (env : ContextEnv) (port_num : Nat) (port_attr : PortAttr)
    (config : DeviceConfig) : List Gid :=
  (List.range (port_attr.gid_tbl_len % 65536).toNat).filterMap
    (gid_at env port_num port_attr config)

/-- The port loop of `Device::update_attr`, over `count` port numbers starting
at `lo`: a failed `query_port` aborts with `?`; an inactive port with
`skip_inactive_port` set contributes nothing; otherwise the port and its
collected addresses are pushed. -/
def ports_from (env : ContextEnv) (config : DeviceConfig) :
    Nat → Nat → Except RError (List Port)
  | _, 0 => .ok []
  | lo, count + 1 =>
    match env.query_port lo with
    | .error e => .error e
    | .ok port_attr =>
      match ports_from env config (lo + 1) count with
      | .error e => .error e
      | .ok rest =>
        if port_attr.state ≠ IBV_PORT_ACTIVE ∧ config.skip_inactive_port = true then
          .ok rest
        else
          .ok (⟨lo, port_attr, collect_port_gids env lo port_attr config⟩ :: rest)

/-- `Device::update_attr`: query device attributes (`?` aborts), loop the
ports `1 ..= phys_port_cnt`, and return the refreshed snapshot. -/
def update_attr (env : ContextEnv) (config : DeviceConfig) :
    Except RError (DeviceAttr × List Port) :=
  match env.query_device with
  | .error e => .error e
  | .ok device_attr =>
    match ports_from env config 1 device_attr.phys_port_cnt with
    | .error e => .error e
    | .ok ports => .ok (device_attr, ports)

/-- A healthy active Ethernet port attribute block with an empty address
table. -/
def activePortAttr : PortAttr := ⟨IBV_PORT_ACTIVE, .Ethernet, 0⟩

/-- Environment where only port 1's attribute query fails; the device query
and port 2 are fine. -/
def envPortFail : ContextEnv where
  query_device := .ok ⟨2⟩
  query_port := fun p =>
    if p = 1 then .error ⟨.IBQueryPortFail, "os error".toList⟩
    else .ok activePortAttr
  gid_raw := fun _ _ => (0, ⟨0, 72057594037927936⟩)
  errno := []
  gid_type_file := fun _ _ => .ok GID_TYPE_ROCE_V2

/-- The empty (default) device configuration: no filters, keep inactive
ports, keep link-local addresses. -/
def cfgEmpty : DeviceConfig := ⟨[], [], false, false⟩

/-- Environment whose device-attribute query fails. -/
def envDevFail : ContextEnv where
  query_device := .error ⟨.IBQueryDeviceFail, "os error".toList⟩
  query_port := fun _ => .ok activePortAttr
  gid_raw := fun _ _ => (0, ⟨0, 72057594037927936⟩)
  errno := []
  gid_type_file := fun _ _ => .ok GID_TYPE_ROCE_V2

/-- One active port with a two-entry address table, both entries readable. -/
def envAddrOk : ContextEnv where
  query_device := .ok ⟨1⟩
  query_port := fun _ => .ok ⟨IBV_PORT_ACTIVE, .Ethernet, 2⟩
  gid_raw := fun _ _ => (0, ⟨0, 72057594037927936⟩)
  errno := "os error".toList
  gid_type_file := fun _ _ => .ok GID_TYPE_ROCE_V2

/-- Same as `envAddrOk` except the GID query at table index 0 fails. -/
def envAddrFail : ContextEnv :=
  { envAddrOk with
    gid_raw := fun p j => if j = 0 then (-1, ⟨0, 0⟩) else envAddrOk.gid_raw p j }

/-- The port-attribute block shared by the per-address witness setting. -/
def paC2 : PortAttr := ⟨IBV_PORT_ACTIVE, .Ethernet, 2⟩

/-- The end-to-end scenario environment: two ports; port 1 is active
(InfiniBand link layer, two address-table entries: index 0 classifies as
native IB, index 1 is the RoCE-v2 link-local address fe80::1); port 2 is
down (state 1). Raw u64 fields are network-order: 33022 = 0x80fe stores the
fe80 subnet prefix, 72057594037927936 = 2^56 stores interface id 1. -/
def envC8 : ContextEnv where
  query_device := .ok ⟨2⟩
  query_port := fun p =>
    if p = 1 then .ok ⟨IBV_PORT_ACTIVE, .InfiniBand, 2⟩
    else .ok ⟨1, .InfiniBand, 0⟩
  gid_raw := fun _ i =>
    if i = 0 then (0, ⟨0, 72057594037927936⟩)
    else (0, ⟨33022, 72057594037927936⟩)
  errno := []
  gid_type_file := fun _ i =>
    if i = 0 then .ok GID_TYPE_IB_ROCE_V1 else .ok GID_TYPE_ROCE_V2

/-- Configuration `{skip-inactive: true, skip-link-local: true}` with no name
or address-type filters. -/
def cfgC8 : DeviceConfig := ⟨[], [], true, true⟩

/-- Configuration with a {RoCE-v2} address-type filter and no other
filtering. -/
def cfgRoceOnly : DeviceConfig := ⟨[], [GidType.RoCEv2], false, false⟩

/-! ## Resource release ordering (src/devices/raw.rs, src/devices/device.rs) -/

/-- Resource events emitted by the wrappers' acquisition and release calls. -/
inductive ResourceEv where
  | openDev
  | allocPD
  | deallocPD
  | closeDev
deriving DecidableEq

/-- `Drop for RawContext` (raw.rs): `ibv_close_device` (best-effort). -/
def dropRawContext : List ResourceEv := [.closeDev]

/-- `Drop for RawProtectionDomain` (raw.rs): `ibv_dealloc_pd` (best-effort). -/
def dropRawProtectionDomain : List ResourceEv := [.deallocPD]

/-- Dropping a `Device` (device.rs): Rust drops struct fields in declaration
order, and `Device` declares `protection_domain : RawProtectionDomain` before
`context : RawContext`, so the PD is deallocated first, then the context
closed. -/
def dropDevice : List ResourceEv := dropRawProtectionDomain ++ dropRawContext

/-- The resource-event trace of `Device::open` (device.rs), by whether
`ibv_open_device` and `ibv_alloc_pd` report success: a null context returns
`Err` with nothing acquired; a null PD returns `Err` after the
already-constructed `RawContext` local is dropped on the early-return path
(closing the context); on success both resources stay owned by the returned
`Device` (whose eventual drop contributes `dropDevice`). The `Bool` result is
whether `open` returned `Ok`. -/
def openTrace (ctx_ok pd_ok : Bool) : List ResourceEv × Bool :=
  if ctx_ok = false then ([], false)
  else if pd_ok = false then ([.openDev] ++ dropRawContext, false)
  else ([.openDev, .allocPD], true)

/-! ## Theorems -/

theorem WRID.type_mask_eq : WRID.TYPE_MASK = 3 <<< 62 := rfl

theorem WRID.not_type_mask_eq : (2 ^ 64 - 1) ^^^ WRID.TYPE_MASK = 2 ^ 62 - 1 := by decide

theorem WRID.and_mask_eq_zero_of_lt {id : Nat} (h : id < 2 ^ 62) :
    id &&& WRID.TYPE_MASK = 0 := by
  apply Nat.eq_of_testBit_eq
  intro i
  rw [WRID.type_mask_eq]
  simp only [Nat.testBit_and, Nat.testBit_shiftLeft, Nat.zero_testBit]
  by_cases h62 : 62 ≤ i
  · have hlt : id < 2 ^ i := lt_of_lt_of_le h (Nat.pow_le_pow_right (by norm_num) h62)
    simp [Nat.testBit_lt_two_pow hlt]
  · simp [h62]

theorem WRID.and_mask_shift (w : Nat) :
    (w &&& WRID.TYPE_MASK) >>> WRID.TYPE_BITS = w / 2 ^ 62 % 4 := by
  show (w &&& WRID.TYPE_MASK) >>> 62 = w / 2 ^ 62 % 4
  have hrhs : w / 2 ^ 62 % 4 = w >>> 62 % 2 ^ 2 := by
    rw [Nat.shiftRight_eq_div_pow]
    norm_num
  rw [hrhs]
  apply Nat.eq_of_testBit_eq
  intro i
  rw [WRID.type_mask_eq]
  simp only [Nat.testBit_shiftRight, Nat.testBit_and, Nat.testBit_shiftLeft,
    Nat.testBit_mod_two_pow]
  have h3 : (3 : Nat) = 2 ^ 2 - 1 := by norm_num
  rw [h3, Nat.testBit_two_pow_sub_one]
  have hle : 62 ≤ 62 + i := Nat.le_add_right 62 i
  simp [hle, Nat.add_sub_cancel_left, Bool.and_comm]

theorem WRID.encoded_eq_add (t : WCType) {id : Nat} (h : id < 2 ^ 62) :
    (WCType.toU64 t <<< WRID.TYPE_BITS) ||| id = WCType.toU64 t * 2 ^ 62 + id := by
  show (WCType.toU64 t <<< 62) ||| id = WCType.toU64 t * 2 ^ 62 + id
  rw [Nat.shiftLeft_eq, Nat.mul_comm]
  exact (Nat.mul_add_lt_is_or h _).symm

theorem WCType.toU64_lt (t : WCType) : WCType.toU64 t < 3 := by
  cases t <;> simp [WCType.toU64]

/-- C1: for every tag and every id < 2^62, `WRID::new(tag, id)` succeeds and
decoding the produced value via `get_type`/`get_id` yields exactly `(tag, id)`;
for every u64 id ≥ 2^62, `WRID::new(tag, id)` panics on the assertion
(embedded: returns `none`). -/
theorem wrid_roundtrip_and_fail_fast (t : WCType) (id : Nat) (hu : id < 2 ^ 64) :
    (id < 2 ^ 62 →
      ∃ w, WRID.new t id = some w ∧ WRID.get_type w = some t ∧ WRID.get_id w = id) ∧
    (2 ^ 62 ≤ id → WRID.new t id = none) := by
  constructor
  · intro hlt
    have hzero := WRID.and_mask_eq_zero_of_lt hlt
    refine ⟨(WCType.toU64 t <<< WRID.TYPE_BITS) ||| id, ?_, ?_, ?_⟩
    · simp [WRID.new, hzero]
    · rw [WRID.encoded_eq_add t hlt]
      have ht3 := WCType.toU64_lt t
      have hdiv : (WCType.toU64 t * 2 ^ 62 + id) / 2 ^ 62 % 4 = WCType.toU64 t := by
        omega
      unfold WRID.get_type
      rw [WRID.and_mask_shift, hdiv]
      cases t <;> simp [WCType.toU64]
    · rw [WRID.encoded_eq_add t hlt]
      unfold WRID.get_id
      rw [WRID.not_type_mask_eq, Nat.and_pow_two_sub_one_eq_mod]
      have ht3 := WCType.toU64_lt t
      omega
  · intro hge
    have hne : id &&& WRID.TYPE_MASK ≠ 0 := by
      intro hz
      have hb : ∀ i, i ≥ 62 → Nat.testBit id i = false := by
        intro i hi
        rcases Nat.lt_or_ge i 64 with h64 | h64
        · have hbit := congrArg (fun x => Nat.testBit x i) hz
          simp only [Nat.testBit_and, Nat.zero_testBit] at hbit
          rw [WRID.type_mask_eq] at hbit
          simp only [Nat.testBit_shiftLeft, decide_eq_true hi, Bool.true_and] at hbit
          have h3 : (3 : Nat) = 2 ^ 2 - 1 := by norm_num
          rw [h3, Nat.testBit_two_pow_sub_one] at hbit
          have hi2 : i - 62 < 2 := by omega
          simpa [hi2] using hbit
        · exact Nat.testBit_lt_two_pow
            (lt_of_lt_of_le hu (Nat.pow_le_pow_right (by norm_num) h64))
      have : id < 2 ^ 62 := Nat.lt_pow_two_of_testBit id hb
      omega
    simp [WRID.new, hne]

/-- Witness for C1 at tag = SendData, id = 5 (and failure side at id = 2^62). -/
theorem wrid_roundtrip_and_fail_fast_witness :
    (5 < 2 ^ 64 ∧
      ((5 < 2 ^ 62 →
        ∃ w, WRID.new .SendData 5 = some w ∧
          WRID.get_type w = some .SendData ∧ WRID.get_id w = 5) ∧
       (2 ^ 62 ≤ 5 → WRID.new .SendData 5 = none))) ∧
    (2 ^ 62 < 2 ^ 64 ∧ (2 ^ 62 ≤ 2 ^ 62 → WRID.new .Recv (2 ^ 62) = none)) :=
  ⟨⟨by norm_num, wrid_roundtrip_and_fail_fast .SendData 5 (by norm_num)⟩,
   ⟨by norm_num, (wrid_roundtrip_and_fail_fast .Recv (2 ^ 62) (by norm_num)).2⟩⟩

/-- C10: over raw 64-bit values, `WRID::get_type` (and hence the `Debug` form,
which calls it) hits its `unreachable!()` panic (embedded: `none`) exactly when
both of the two most-significant bits are set (tag value 3); and no value
produced by `WRID::new` (hence by `recv`/`send_data`/`send_imm`, which call it)
ever triggers it, but a raw value with both bits set is directly constructible
since the inner field is public. -/
theorem wrid_get_type_partiality (w : Nat) (hw : w < 2 ^ 64) :
    (WRID.get_type w = none ↔
      (Nat.testBit w 62 = true ∧ Nat.testBit w 63 = true)) ∧
    (∀ (t : WCType) (id w' : Nat), WRID.new t id = some w' → WRID.get_type w' ≠ none) := by
  constructor
  · have h62 : Nat.testBit w 62 = decide (w / 2 ^ 62 % 2 = 1) := Nat.testBit_to_div_mod
    have h63 : Nat.testBit w 63 = decide (w / 2 ^ 63 % 2 = 1) := Nat.testBit_to_div_mod
    have hdd : w / 2 ^ 63 = w / 2 ^ 62 / 2 := by
      rw [Nat.div_div_eq_div_mul]
      norm_num
    unfold WRID.get_type
    rw [WRID.and_mask_shift]
    have h4 : w / 2 ^ 62 % 4 = 0 ∨ w / 2 ^ 62 % 4 = 1 ∨ w / 2 ^ 62 % 4 = 2 ∨
        w / 2 ^ 62 % 4 = 3 := by omega
    rcases h4 with h | h | h | h <;> rw [h] <;> simp [h62, h63, hdd] <;> omega
  · intro t id w' hnew
    unfold WRID.new at hnew
    split at hnew
    case isTrue hzero =>
      injection hnew with hw'
      subst hw'
      unfold WRID.get_type
      rw [Nat.and_distrib_right, hzero, Nat.or_zero]
      cases t <;> decide
    case isFalse => exact absurd hnew (by simp)

/-- Witness for C10 at w = 0xC000000000000000 (both top bits set) and at the
constructed value `new SendImm 7`. -/
theorem wrid_get_type_partiality_witness :
    (13835058055282163712 < 2 ^ 64 ∧
      ((WRID.get_type 13835058055282163712 = none ↔
        (Nat.testBit 13835058055282163712 62 = true ∧
         Nat.testBit 13835058055282163712 63 = true)) ∧
       (∀ (t : WCType) (id w' : Nat),
          WRID.new t id = some w' → WRID.get_type w' ≠ none))) :=
  ⟨by norm_num, wrid_get_type_partiality 13835058055282163712 (by norm_num)⟩

theorem bswap64_lt (x : Nat) : bswap64 x < 2 ^ 64 := by
  unfold bswap64
  omega

theorem bswap64_bytes (b0 b1 b2 b3 b4 b5 b6 b7 : Nat)
    (h0 : b0 < 256) (h1 : b1 < 256) (h2 : b2 < 256) (h3 : b3 < 256)
    (h4 : b4 < 256) (h5 : b5 < 256) (h6 : b6 < 256) (h7 : b7 < 256) :
    bswap64 (b0 + b1 * 2 ^ 8 + b2 * 2 ^ 16 + b3 * 2 ^ 24 + b4 * 2 ^ 32 +
             b5 * 2 ^ 40 + b6 * 2 ^ 48 + b7 * 2 ^ 56) =
    b7 + b6 * 2 ^ 8 + b5 * 2 ^ 16 + b4 * 2 ^ 24 + b3 * 2 ^ 32 +
    b2 * 2 ^ 40 + b1 * 2 ^ 48 + b0 * 2 ^ 56 := by
  set S := b0 + b1 * 2 ^ 8 + b2 * 2 ^ 16 + b3 * 2 ^ 24 + b4 * 2 ^ 32 +
    b5 * 2 ^ 40 + b6 * 2 ^ 48 + b7 * 2 ^ 56 with hS
  have e56 : S / 2 ^ 56 % 256 = b7 := by omega
  have e48 : S / 2 ^ 48 % 256 = b6 := by omega
  have e40 : S / 2 ^ 40 % 256 = b5 := by omega
  have e32 : S / 2 ^ 32 % 256 = b4 := by omega
  have e24 : S / 2 ^ 24 % 256 = b3 := by omega
  have e16 : S / 2 ^ 16 % 256 = b2 := by omega
  have e8 : S / 2 ^ 8 % 256 = b1 := by omega
  have e0 : S % 256 = b0 := by omega
  unfold bswap64
  rw [e56, e48, e40, e32, e24, e16, e8, e0]

theorem bswap64_involution (x : Nat) (h : x < 2 ^ 64) : bswap64 (bswap64 x) = x := by
  obtain ⟨b0, b1, b2, b3, b4, b5, b6, b7, hb, hx⟩ :
      ∃ b0 b1 b2 b3 b4 b5 b6 b7 : Nat,
        (b0 < 256 ∧ b1 < 256 ∧ b2 < 256 ∧ b3 < 256 ∧
         b4 < 256 ∧ b5 < 256 ∧ b6 < 256 ∧ b7 < 256) ∧
        x = b0 + b1 * 2 ^ 8 + b2 * 2 ^ 16 + b3 * 2 ^ 24 + b4 * 2 ^ 32 +
            b5 * 2 ^ 40 + b6 * 2 ^ 48 + b7 * 2 ^ 56 := by
    refine ⟨x % 256, x / 2 ^ 8 % 256, x / 2 ^ 16 % 256, x / 2 ^ 24 % 256,
      x / 2 ^ 32 % 256, x / 2 ^ 40 % 256, x / 2 ^ 48 % 256, x / 2 ^ 56 % 256, ?_, ?_⟩
    · omega
    · omega
  obtain ⟨h0, h1, h2, h3, h4, h5, h6, h7⟩ := hb
  subst hx
  rw [bswap64_bytes b0 b1 b2 b3 b4 b5 b6 b7 h0 h1 h2 h3 h4 h5 h6 h7,
      bswap64_bytes b7 b6 b5 b4 b3 b2 b1 b0 h7 h6 h5 h4 h3 h2 h1 h0]

theorem hex_val_lt {c : Char} (h : is_hex_digit c = true) : hex_val c < 16 := by
  unfold is_hex_digit at h
  simp only [Bool.or_eq_true, Bool.and_eq_true, decide_eq_true_eq] at h
  unfold hex_val
  split
  · omega
  · split
    · omega
    · omega

theorem is_hex_digit_ne_plus {c : Char} (h : is_hex_digit c = true) : ¬(c = '+') := by
  intro hc
  subst hc
  exact absurd h (by decide)

theorem hex_accum_isSome :
    ∀ (p : List Char) (acc : Nat), (∀ c ∈ p, is_hex_digit c = true) →
      (acc + 1) * 16 ^ p.length ≤ 65536 → (hex_accum p acc).isSome = true := by
  intro p
  induction p with
  | nil =>
    intro acc _ _
    simp [hex_accum]
  | cons c cs ih =>
    intro acc hall hbound
    have hc : is_hex_digit c = true := hall c (List.mem_cons_self c cs)
    have hv : hex_val c < 16 := hex_val_lt hc
    have hpow : 0 < 16 ^ cs.length := Nat.pos_pow_of_pos _ (by norm_num)
    have hb1 : (acc * 16 + hex_val c + 1) * 16 ^ cs.length ≤ 65536 := by
      have hstep : acc * 16 + hex_val c + 1 ≤ (acc + 1) * 16 := by omega
      calc (acc * 16 + hex_val c + 1) * 16 ^ cs.length
          ≤ (acc + 1) * 16 * 16 ^ cs.length := Nat.mul_le_mul_right _ hstep
        _ = (acc + 1) * 16 ^ (c :: cs).length := by
            rw [List.length_cons, pow_succ]
            ring
        _ ≤ 65536 := hbound
    have hacc : acc * 16 + hex_val c < 65536 := by
      have hone : acc * 16 + hex_val c + 1 ≤ (acc * 16 + hex_val c + 1) * 16 ^ cs.length :=
        Nat.le_mul_of_pos_right _ hpow
      omega
    have hrest : ∀ x ∈ cs, is_hex_digit x = true :=
      fun x hx => hall x (List.mem_cons_of_mem c hx)
    simp only [hex_accum, hc, if_true, hacc, if_pos]
    exact ih (acc * 16 + hex_val c) hrest hb1

theorem from_str_radix_16_isSome {p : List Char} (hne : p ≠ [])
    (hlen : p.length ≤ 4) (hall : ∀ c ∈ p, is_hex_digit c = true) :
    (from_str_radix_16 p).isSome = true := by
  match p, hne with
  | c :: rest, _ =>
    have hc := hall c (List.mem_cons_self c rest)
    have hcp : ¬(c = '+') := is_hex_digit_ne_plus hc
    show (from_str_radix_16 (c :: rest)).isSome = true
    simp only [from_str_radix_16]
    rw [if_neg hcp]
    apply hex_accum_isSome (c :: rest) 0 hall
    have h16 : (16 : Nat) ^ (c :: rest).length ≤ 16 ^ 4 :=
      Nat.pow_le_pow_right (by norm_num) hlen
    simpa using h16

theorem hex_accum_cons {c : Char} {cs : List Char} {acc : Nat}
    (hc : is_hex_digit c = true) (hlt : acc * 16 + hex_val c < 65536) :
    hex_accum (c :: cs) acc = hex_accum cs (acc * 16 + hex_val c) := by
  simp only [hex_accum]
  rw [if_pos hc, if_pos hlt]

theorem to_hex_digit_spec :
    ∀ n, n < 16 → is_hex_digit (to_hex_digit n) = true ∧
      hex_val (to_hex_digit n) = n ∧ ¬(to_hex_digit n = ':') := by decide

theorem hex_accum_four (n1 n2 n3 n4 : Nat)
    (h1 : n1 < 16) (h2 : n2 < 16) (h3 : n3 < 16) (h4 : n4 < 16) :
    hex_accum [to_hex_digit n1, to_hex_digit n2, to_hex_digit n3, to_hex_digit n4] 0 =
      some (n1 * 4096 + n2 * 256 + n3 * 16 + n4) := by
  obtain ⟨ha1, hb1, -⟩ := to_hex_digit_spec n1 h1
  obtain ⟨ha2, hb2, -⟩ := to_hex_digit_spec n2 h2
  obtain ⟨ha3, hb3, -⟩ := to_hex_digit_spec n3 h3
  obtain ⟨ha4, hb4, -⟩ := to_hex_digit_spec n4 h4
  rw [hex_accum_cons ha1 (by rw [hb1]; omega), hb1]
  rw [hex_accum_cons ha2 (by rw [hb2]; omega), hb2]
  rw [hex_accum_cons ha3 (by rw [hb3]; omega), hb3]
  rw [hex_accum_cons ha4 (by rw [hb4]; omega), hb4]
  simp only [hex_accum, Option.some.injEq]
  omega

theorem parse_toHex4 (a : Nat) (ha : a < 65536) :
    from_str_radix_16 (toHex4 a) = some a := by
  have h1 : a / 4096 % 16 < 16 := Nat.mod_lt _ (by norm_num)
  have h2 : a / 256 % 16 < 16 := Nat.mod_lt _ (by norm_num)
  have h3 : a / 16 % 16 < 16 := Nat.mod_lt _ (by norm_num)
  have h4 : a % 16 < 16 := Nat.mod_lt _ (by norm_num)
  obtain ⟨hh1, -, -⟩ := to_hex_digit_spec _ h1
  have hp1 : ¬(to_hex_digit (a / 4096 % 16) = '+') := is_hex_digit_ne_plus hh1
  unfold toHex4
  simp only [from_str_radix_16]
  rw [if_neg hp1]
  rw [hex_accum_four _ _ _ _ h1 h2 h3 h4]
  congr 1
  omega

theorem split_colon_no_colon {xs : List Char} (h : ':' ∉ xs) :
    split_colon xs = [xs] := by
  induction xs with
  | nil => rfl
  | cons c cs ih =>
    have hc : ¬(c = ':') := by
      intro hcc
      subst hcc
      simp at h
    have hcs : ':' ∉ cs := fun hm => h (List.mem_cons_of_mem c hm)
    simp [split_colon, hc, ih hcs]

theorem split_colon_append {xs : List Char} (h : ':' ∉ xs) (ys : List Char) :
    split_colon (xs ++ ':' :: ys) = xs :: split_colon ys := by
  induction xs with
  | nil =>
    simp [split_colon]
  | cons c cs ih =>
    have hc : ¬(c = ':') := by
      intro hcc
      subst hcc
      simp at h
    have hcs : ':' ∉ cs := fun hm => h (List.mem_cons_of_mem c hm)
    have hstep : (c :: cs) ++ ':' :: ys = c :: (cs ++ ':' :: ys) := rfl
    rw [hstep]
    simp only [split_colon]
    rw [if_neg hc, ih hcs]

theorem toHex4_no_colon (a : Nat) : ':' ∉ toHex4 a := by
  intro hm
  simp only [toHex4, List.mem_cons, List.not_mem_nil, or_false] at hm
  rcases hm with h | h | h | h <;>
    exact (to_hex_digit_spec _ (Nat.mod_lt _ (by norm_num))).2.2 h.symm

theorem guid_to_text_eq (stored : Nat) :
    guid_to_text stored =
      toHex4 ((bswap64 stored >>> 48) &&& 0xFFFF) ++ ':' ::
      (toHex4 ((bswap64 stored >>> 32) &&& 0xFFFF) ++ ':' ::
      (toHex4 ((bswap64 stored >>> 16) &&& 0xFFFF) ++ ':' ::
      toHex4 (bswap64 stored &&& 0xFFFF))) := rfl

/-- C5: for every 64-bit stored value g, parsing the textual form of the Guid
storing g yields back exactly g (`from_text(to_text(g)) == g`). -/
theorem guid_text_roundtrip (g : Nat) (hg : g < 2 ^ 64) :
    guid_from_text (guid_to_text g) = some g := by
  have hvlt : bswap64 g < 2 ^ 64 := bswap64_lt g
  have hmask : (65535 : Nat) = 2 ^ 16 - 1 := by norm_num
  have ha0 : (bswap64 g >>> 48) &&& 0xFFFF = bswap64 g / 2 ^ 48 % 2 ^ 16 := by
    rw [Nat.shiftRight_eq_div_pow, hmask, Nat.and_pow_two_sub_one_eq_mod]
  have ha1 : (bswap64 g >>> 32) &&& 0xFFFF = bswap64 g / 2 ^ 32 % 2 ^ 16 := by
    rw [Nat.shiftRight_eq_div_pow, hmask, Nat.and_pow_two_sub_one_eq_mod]
  have ha2 : (bswap64 g >>> 16) &&& 0xFFFF = bswap64 g / 2 ^ 16 % 2 ^ 16 := by
    rw [Nat.shiftRight_eq_div_pow, hmask, Nat.and_pow_two_sub_one_eq_mod]
  have ha3 : bswap64 g &&& 0xFFFF = bswap64 g % 2 ^ 16 := by
    rw [hmask, Nat.and_pow_two_sub_one_eq_mod]
  have hb0 : bswap64 g / 2 ^ 48 % 2 ^ 16 < 65536 := Nat.mod_lt _ (by norm_num)
  have hb1 : bswap64 g / 2 ^ 32 % 2 ^ 16 < 65536 := Nat.mod_lt _ (by norm_num)
  have hb2 : bswap64 g / 2 ^ 16 % 2 ^ 16 < 65536 := Nat.mod_lt _ (by norm_num)
  have hb3 : bswap64 g % 2 ^ 16 < 65536 := Nat.mod_lt _ (by norm_num)
  have hsum :
      ((bswap64 g / 2 ^ 48 % 2 ^ 16) <<< 48) ||| ((bswap64 g / 2 ^ 32 % 2 ^ 16) <<< 32) |||
        ((bswap64 g / 2 ^ 16 % 2 ^ 16) <<< 16) ||| ((bswap64 g % 2 ^ 16) <<< 0) =
      bswap64 g := by
    have h23 : ((bswap64 g / 2 ^ 16 % 2 ^ 16) <<< 16) ||| ((bswap64 g % 2 ^ 16) <<< 0) =
        2 ^ 16 * (bswap64 g / 2 ^ 16 % 2 ^ 16) + bswap64 g % 2 ^ 16 := by
      rw [Nat.shiftLeft_eq, Nat.shiftLeft_eq, pow_zero, Nat.mul_one, Nat.mul_comm]
      exact (Nat.mul_add_lt_is_or (by omega) _).symm
    have hassoc :
        ((bswap64 g / 2 ^ 48 % 2 ^ 16) <<< 48) ||| ((bswap64 g / 2 ^ 32 % 2 ^ 16) <<< 32) |||
          ((bswap64 g / 2 ^ 16 % 2 ^ 16) <<< 16) ||| ((bswap64 g % 2 ^ 16) <<< 0) =
        ((bswap64 g / 2 ^ 48 % 2 ^ 16) <<< 48) ||| (((bswap64 g / 2 ^ 32 % 2 ^ 16) <<< 32) |||
          (((bswap64 g / 2 ^ 16 % 2 ^ 16) <<< 16) ||| ((bswap64 g % 2 ^ 16) <<< 0))) := by
      rw [Nat.or_assoc, Nat.or_assoc]
    rw [hassoc, h23]
    have h123 : ((bswap64 g / 2 ^ 32 % 2 ^ 16) <<< 32) |||
        (2 ^ 16 * (bswap64 g / 2 ^ 16 % 2 ^ 16) + bswap64 g % 2 ^ 16) =
        2 ^ 32 * (bswap64 g / 2 ^ 32 % 2 ^ 16) +
          (2 ^ 16 * (bswap64 g / 2 ^ 16 % 2 ^ 16) + bswap64 g % 2 ^ 16) := by
      rw [Nat.shiftLeft_eq, Nat.mul_comm]
      exact (Nat.mul_add_lt_is_or (by omega) _).symm
    rw [h123]
    have h0123 : ((bswap64 g / 2 ^ 48 % 2 ^ 16) <<< 48) |||
        (2 ^ 32 * (bswap64 g / 2 ^ 32 % 2 ^ 16) +
          (2 ^ 16 * (bswap64 g / 2 ^ 16 % 2 ^ 16) + bswap64 g % 2 ^ 16)) =
        2 ^ 48 * (bswap64 g / 2 ^ 48 % 2 ^ 16) +
          (2 ^ 32 * (bswap64 g / 2 ^ 32 % 2 ^ 16) +
            (2 ^ 16 * (bswap64 g / 2 ^ 16 % 2 ^ 16) + bswap64 g % 2 ^ 16)) := by
      rw [Nat.shiftLeft_eq, Nat.mul_comm]
      exact (Nat.mul_add_lt_is_or (by omega) _).symm
    rw [h0123]
    omega
  rw [guid_to_text_eq]
  rw [ha0, ha1, ha2, ha3]
  unfold guid_from_text
  rw [split_colon_append (toHex4_no_colon _), split_colon_append (toHex4_no_colon _),
      split_colon_append (toHex4_no_colon _), split_colon_no_colon (toHex4_no_colon _)]
  simp only [parse_toHex4 _ hb0, parse_toHex4 _ hb1, parse_toHex4 _ hb2, parse_toHex4 _ hb3]
  rw [hsum, bswap64_involution g hg]

/-- Witness for C5 at g = 0x506b0b03_0039e8a4 stored byte-swapped. -/
theorem guid_text_roundtrip_witness :
    11529215046068469760 < 2 ^ 64 ∧
      guid_from_text (guid_to_text 11529215046068469760) = some 11529215046068469760 :=
  ⟨by norm_num, guid_text_roundtrip 11529215046068469760 (by norm_num)⟩

/-- C4 counterexample: `"00001:0000:0000:0001"` (first group has five digits)
and `"+1:2:3:4"` (leading sign in the first group) are not strings of exactly
four colon-separated groups of 1-4 hexadecimal digits, yet the deserializer
accepts both, so the rejection half of the claim fails. -/
theorem guid_from_text_rejection_counterexample :
    (wellFormedGuidText ("00001:0000:0000:0001".toList) = false ∧
      (guid_from_text ("00001:0000:0000:0001".toList)).isSome = true) ∧
    (wellFormedGuidText ("+1:2:3:4".toList) = false ∧
      (guid_from_text ("+1:2:3:4".toList)).isSome = true) := by decide

/-- C4 (amended): `from_text` accepts every string of exactly four
colon-separated groups of 1-4 hex digits, case-insensitively; and it rejects a
string exactly when its ':'-split does not have four parts or some part fails
`u16` hex parsing — which also accepts parts with a leading `+` or with extra
leading zeros beyond four digits. -/
theorem guid_from_text_accepts_and_rejects (s : List Char) :
    (wellFormedGuidText s = true → (guid_from_text s).isSome = true) ∧
    ((guid_from_text s).isSome = true ↔
      ((split_colon s).length = 4 ∧
        ∀ p ∈ split_colon s, (from_str_radix_16 p).isSome = true)) := by
  have hiff : (guid_from_text s).isSome = true ↔
      ((split_colon s).length = 4 ∧
        ∀ p ∈ split_colon s, (from_str_radix_16 p).isSome = true) := by
    unfold guid_from_text
    rcases hsp : split_colon s with _ | ⟨p0, _ | ⟨p1, _ | ⟨p2, _ | ⟨p3, _ | ⟨p4, rest⟩⟩⟩⟩⟩
    · simp
    · simp
    · simp
    · simp
    · rcases hp0 : from_str_radix_16 p0 with _ | v0 <;>
      rcases hp1 : from_str_radix_16 p1 with _ | v1 <;>
      rcases hp2 : from_str_radix_16 p2 with _ | v2 <;>
      rcases hp3 : from_str_radix_16 p3 with _ | v3 <;>
        simp [hp0, hp1, hp2, hp3]
    · simp
  refine ⟨?_, hiff⟩
  intro hwf
  unfold wellFormedGuidText at hwf
  simp only [Bool.and_eq_true, beq_iff_eq, List.all_eq_true] at hwf
  obtain ⟨hlen, hall⟩ := hwf
  refine hiff.mpr ⟨hlen, ?_⟩
  intro p hp
  have hpw := hall p hp
  simp only [Bool.and_eq_true, decide_eq_true_eq, List.all_eq_true] at hpw
  obtain ⟨⟨hp1, hp4⟩, hphex⟩ := hpw
  have hpne : p ≠ [] := by
    intro hnil
    rw [hnil] at hp1
    simp at hp1
  exact from_str_radix_16_isSome hpne hp4 hphex

/-- Witness for the amended C4 at the well-formed, mixed-case
`"abCD:0:ffff:1234"`. -/
theorem guid_from_text_accepts_and_rejects_witness :
    wellFormedGuidText ("abCD:0:ffff:1234".toList) = true ∧
      (guid_from_text ("abCD:0:ffff:1234".toList)).isSome = true :=
  ⟨by decide, (guid_from_text_accepts_and_rejects ("abCD:0:ffff:1234".toList)).1 (by decide)⟩

/-- C3: GID classification maps the sysfs file content as claimed: the
IB/RoCEv1 sentinel resolves through the link layer (InfiniBand ⇒ IB,
Ethernet ⇒ RoCEv1, anything else ⇒ Other(trimmed)); the RoCEv2 sentinel gives
RoCEv2 regardless of link layer; any other content gives Other(trimmed); an
unreadable file gives an IBQueryGidTypeFail error wrapping the I/O message. -/
theorem gid_classification (ll : LinkLayer) (c e : List Char) :
    (query_gid_type (.ok GID_TYPE_IB_ROCE_V1) .InfiniBand = .ok .IB) ∧
    (query_gid_type (.ok GID_TYPE_IB_ROCE_V1) .Ethernet = .ok .RoCEv1) ∧
    (ll ≠ .InfiniBand → ll ≠ .Ethernet →
      query_gid_type (.ok GID_TYPE_IB_ROCE_V1) ll =
        .ok (.Other (trim GID_TYPE_IB_ROCE_V1))) ∧
    (query_gid_type (.ok GID_TYPE_ROCE_V2) ll = .ok .RoCEv2) ∧
    (c ≠ GID_TYPE_IB_ROCE_V1 → c ≠ GID_TYPE_ROCE_V2 →
      query_gid_type (.ok c) ll = .ok (.Other (trim c))) ∧
    (query_gid_type (.error e) ll = .error ⟨.IBQueryGidTypeFail, e⟩) := by
  refine ⟨rfl, rfl, ?_, ?_, ?_, rfl⟩
  · intro h1 h2
    cases ll
    · rfl
    · exact absurd rfl h1
    · exact absurd rfl h2
  · cases ll <;> rfl
  · intro h1 h2
    simp only [query_gid_type]
    rw [if_neg h1, if_neg h2]

/-- Witness for C3 at link layer Unspecified, content "custom type\n", and
I/O error message "permission denied". -/
theorem gid_classification_witness :
    ((LinkLayer.Unspecified ≠ LinkLayer.InfiniBand →
      LinkLayer.Unspecified ≠ LinkLayer.Ethernet →
      query_gid_type (.ok GID_TYPE_IB_ROCE_V1) .Unspecified =
        .ok (.Other (trim GID_TYPE_IB_ROCE_V1))) ∧
     ("custom type\n".toList ≠ GID_TYPE_IB_ROCE_V1 →
      "custom type\n".toList ≠ GID_TYPE_ROCE_V2 →
      query_gid_type (.ok ("custom type\n".toList)) .Unspecified =
        .ok (.Other (trim ("custom type\n".toList))))) ∧
    query_gid_type (.error ("permission denied".toList)) .Unspecified =
      .error ⟨.IBQueryGidTypeFail, "permission denied".toList⟩ :=
  ⟨⟨(gid_classification .Unspecified ("custom type\n".toList)
        ("permission denied".toList)).2.2.1,
    (gid_classification .Unspecified ("custom type\n".toList)
        ("permission denied".toList)).2.2.2.2.1⟩,
   (gid_classification .Unspecified ("custom type\n".toList)
        ("permission denied".toList)).2.2.2.2.2⟩

/-- C9: for every port/index query outcome, `query_gid` fails with
`IBQueryGidFail` if the verbs call failed or the returned address is the null
address (zero interface identifier, the `ibv_gid::is_null` test), and returns
the address otherwise. -/
theorem query_gid_null_and_failure (ret : Int) (gid : IbvGid) (m : List Char) :
    ((ret ≠ 0 ∨ gid.is_null = true) →
      query_gid ret gid m = .error ⟨.IBQueryGidFail, m⟩) ∧
    (ret = 0 → gid.is_null = false → query_gid ret gid m = .ok gid) := by
  constructor
  · intro h
    unfold query_gid
    rw [if_neg]
    intro hc
    rcases h with h | h
    · exact h hc.1
    · rw [hc.2] at h
      exact Bool.false_ne_true h
  · intro h1 h2
    unfold query_gid
    rw [if_pos ⟨h1, h2⟩]

/-- Witness for C9: a successful query of a fe80::...:1-style address, a
rejected address with non-zero subnet but zero interface id, and a failed
verbs call. -/
theorem query_gid_null_and_failure_witness :
    query_gid 0 ⟨0x80fe, 0x0100000000000000⟩ [] =
      .ok ⟨0x80fe, 0x0100000000000000⟩ ∧
    query_gid 0 ⟨0x80fe, 0⟩ "os error".toList =
      .error ⟨.IBQueryGidFail, "os error".toList⟩ ∧
    query_gid (-1) ⟨0x80fe, 0x0100000000000000⟩ "os error".toList =
      .error ⟨.IBQueryGidFail, "os error".toList⟩ :=
  ⟨(query_gid_null_and_failure 0 ⟨0x80fe, 0x0100000000000000⟩ []).2 rfl (by decide),
   (query_gid_null_and_failure 0 ⟨0x80fe, 0⟩ ("os error".toList)).1 (Or.inr (by decide)),
   (query_gid_null_and_failure (-1) ⟨0x80fe, 0x0100000000000000⟩
      ("os error".toList)).1 (Or.inl (by decide))⟩

theorem gid_at_index {env : ContextEnv} {p : Nat} {pa : PortAttr}
    {cfg : DeviceConfig} {i : Nat} {g : Gid}
    (h : gid_at env p pa cfg i = some g) : g.index = i := by
  unfold gid_at at h
  split at h
  · exact absurd h (by simp)
  · split at h
    · exact absurd h (by simp)
    · split at h
      · exact absurd h (by simp)
      · split at h
        · exact absurd h (by simp)
        · injection h with h'
          subst h'
          rfl

theorem gid_at_filter {env : ContextEnv} {p : Nat} {pa : PortAttr}
    {cfg : DeviceConfig} {i : Nat} {g : Gid}
    (hne : cfg.gid_type_filter ≠ [])
    (h : gid_at env p pa cfg i = some g) :
    g.gid_type ∈ cfg.gid_type_filter := by
  have hemp : cfg.gid_type_filter.isEmpty = false := by
    cases hc : cfg.gid_type_filter
    · exact absurd hc hne
    · rfl
  unfold gid_at at h
  split at h
  · exact absurd h (by simp)
  · split at h
    · exact absurd h (by simp)
    · split at h
      · exact absurd h (by simp)
      · rename_i hfilter
        split at h
        · exact absurd h (by simp)
        · injection h with h'
          subst h'
          show _ ∈ cfg.gid_type_filter
          by_contra hmem
          exact hfilter ⟨hemp, hmem⟩

theorem ports_from_mem (env : ContextEnv) (cfg : DeviceConfig) :
    ∀ (count lo : Nat) (ports : List Port),
      ports_from env cfg lo count = .ok ports →
      ∀ port ∈ ports,
        (cfg.skip_inactive_port = true → port.port_attr.state = IBV_PORT_ACTIVE) ∧
        port.gids = collect_port_gids env port.port_num port.port_attr cfg := by
  intro count
  induction count with
  | zero =>
    intro lo ports h port hmem
    simp only [ports_from] at h
    injection h with h'
    subst h'
    simp at hmem
  | succ n ih =>
    intro lo ports h port hmem
    simp only [ports_from] at h
    rcases hq : env.query_port lo with e | pa
    · simp only [hq] at h
      exact absurd h (by simp)
    · simp only [hq] at h
      rcases hr : ports_from env cfg (lo + 1) n with e | rest
      · simp only [hr] at h
        exact absurd h (by simp)
      · simp only [hr] at h
        split at h
        · injection h with h'
          subst h'
          exact ih (lo + 1) rest hr port hmem
        · rename_i hcond
          injection h with h'
          subst h'
          rcases List.mem_cons.mp hmem with hhead | htail
          · subst hhead
            refine ⟨?_, rfl⟩
            intro hskip
            by_contra hstate
            exact hcond ⟨hstate, hskip⟩
          · exact ih (lo + 1) rest hr port htail

/-- C7: with `skip-inactive` set, every port in the returned inventory is in
the active state; with a non-empty address-type filter, every surviving
address's tag belongs to the filter set. -/
theorem filter_pipeline_invariants (env : ContextEnv) (cfg : DeviceConfig)
    (res : DeviceAttr × List Port) (h : update_attr env cfg = .ok res) :
    (cfg.skip_inactive_port = true →
      ∀ port ∈ res.2, port.port_attr.state = IBV_PORT_ACTIVE) ∧
    (cfg.gid_type_filter ≠ [] →
      ∀ port ∈ res.2, ∀ g ∈ port.gids, g.gid_type ∈ cfg.gid_type_filter) := by
  unfold update_attr at h
  rcases hd : env.query_device with e | da
  · simp only [hd] at h
    exact absurd h (by simp)
  · simp only [hd] at h
    rcases hp : ports_from env cfg 1 da.phys_port_cnt with e | ports
    · simp only [hp] at h
      exact absurd h (by simp)
    · simp only [hp] at h
      injection h with h'
      subst h'
      constructor
      · intro hskip port hmem
        exact (ports_from_mem env cfg _ 1 ports hp port hmem).1 hskip
      · intro hne port hmem g hg
        have hgids := (ports_from_mem env cfg _ 1 ports hp port hmem).2
        rw [hgids] at hg
        obtain ⟨i, -, hi⟩ := List.mem_filterMap.mp hg
        exact gid_at_filter hne hi

theorem ports_from_fail (env : ContextEnv) (cfg : DeviceConfig) :
    ∀ (count lo : Nat),
      (∃ p e, lo ≤ p ∧ p < lo + count ∧ env.query_port p = .error e) →
      ∃ e', ports_from env cfg lo count = .error e' := by
  intro count
  induction count with
  | zero =>
    intro lo ⟨p, e, h1, h2, _⟩
    omega
  | succ n ih =>
    intro lo ⟨p, e, h1, h2, hp⟩
    rcases hq : env.query_port lo with e0 | pa
    · exact ⟨e0, by simp only [ports_from, hq]⟩
    · have hpl : p ≠ lo := by
        intro hpe
        rw [hpe, hq] at hp
        exact absurd hp (by simp)
      obtain ⟨e', hrec⟩ := ih (lo + 1) ⟨p, e, by omega, by omega, hp⟩
      exact ⟨e', by simp only [ports_from, hq, hrec]⟩

theorem gid_at_congr {env env' : ContextEnv} {p j : Nat} {pa : PortAttr}
    {cfg : DeviceConfig}
    (he : env'.errno = env.errno)
    (hr : env'.gid_raw p j = env.gid_raw p j)
    (hf : env'.gid_type_file p j = env.gid_type_file p j) :
    gid_at env' p pa cfg j = gid_at env p pa cfg j := by
  unfold gid_at
  rw [he, hr, hf]

theorem gid_at_none_of_fail {env : ContextEnv} {p : Nat} {pa : PortAttr}
    {cfg : DeviceConfig} {i : Nat}
    (hfail :
      (∃ e, query_gid (env.gid_raw p i).1 (env.gid_raw p i).2 env.errno = .error e) ∨
      (∃ e, query_gid_type (env.gid_type_file p i) pa.link_layer = .error e)) :
    gid_at env p pa cfg i = none := by
  unfold gid_at
  rcases hfail with ⟨e, he⟩ | ⟨e, he⟩
  · rw [he]
  · rcases hq : query_gid (env.gid_raw p i).1 (env.gid_raw p i).2 env.errno with e0 | gid
    · rfl
    · rw [he]

theorem filterMap_local (f g : Nat → Option Gid) (i : Nat)
    (hfi : ∀ x gd, f x = some gd → gd.index = x)
    (hgi : g i = none)
    (hagree : ∀ j, j ≠ i → g j = f j) :
    ∀ l : List Nat,
      l.filterMap g = (l.filterMap f).filter (fun gd => gd.index ≠ i) := by
  intro l
  induction l with
  | nil => rfl
  | cons x xs ih =>
    by_cases hx : x = i
    · subst hx
      rcases hfx : f x with _ | gd
      · simp [List.filterMap_cons, hgi, hfx, ih]
      · have hidx := hfi x gd hfx
        simp [List.filterMap_cons, hgi, hfx, ih, List.filter_cons, hidx]
    · rcases hfx : f x with _ | gd
      · simp [List.filterMap_cons, hagree x hx, hfx, ih]
      · have hidx := hfi x gd hfx
        have hne : gd.index ≠ i := by
          rw [hidx]
          exact hx
        simp [List.filterMap_cons, hagree x hx, hfx, ih, List.filter_cons, hne]

/-- C2 (amended): during enumeration, per-address failures (a failed GID query
or GID-type classification at one table index) are locally absorbed — the
result is exactly the same inventory minus that single index; a per-device
attribute-query failure aborts with that error; and a failed per-port
attribute query also aborts the whole enumeration (it is NOT locally
absorbed). -/
theorem enumeration_error_policy (env env' : ContextEnv) (cfg : DeviceConfig)
    (pa : PortAttr) (pnum i : Nat) :
    (∀ e, env.query_device = .error e → update_attr env cfg = .error e) ∧
    (∀ da e p, env.query_device = .ok da → 1 ≤ p → p ≤ da.phys_port_cnt →
      env.query_port p = .error e → ∃ e', update_attr env cfg = .error e') ∧
    ((env'.errno = env.errno ∧
      (∀ j, j ≠ i → env'.gid_raw pnum j = env.gid_raw pnum j) ∧
      (∀ j, j ≠ i → env'.gid_type_file pnum j = env.gid_type_file pnum j) ∧
      ((∃ e, query_gid (env'.gid_raw pnum i).1 (env'.gid_raw pnum i).2
          env'.errno = .error e) ∨
       (∃ e, query_gid_type (env'.gid_type_file pnum i) pa.link_layer = .error e))) →
      collect_port_gids env' pnum pa cfg =
        (collect_port_gids env pnum pa cfg).filter (fun gd => gd.index ≠ i)) := by
  refine ⟨?_, ?_, ?_⟩
  · intro e he
    simp only [update_attr, he]
  · intro da e p hda h1 h2 hp
    obtain ⟨e', hpf⟩ :=
      ports_from_fail env cfg da.phys_port_cnt 1 ⟨p, e, h1, by omega, hp⟩
    exact ⟨e', by simp only [update_attr, hda, hpf]⟩
  · intro ⟨he, hr, hf, hfail⟩
    unfold collect_port_gids
    apply filterMap_local
    · intro x gd hx
      exact gid_at_index hx
    · exact gid_at_none_of_fail hfail
    · intro j hj
      exact gid_at_congr he (hr j hj) (hf j hj)

/-- C2 counterexample: in `envPortFail` only port 1's attribute query fails
(port 2 answers fine), yet `update_attr` aborts the whole refresh with the
port error instead of skipping just that port — per-port failures are not
locally absorbed. -/
theorem enumeration_port_failure_counterexample :
    envPortFail.query_port 2 = .ok activePortAttr ∧
    update_attr envPortFail cfgEmpty =
      .error ⟨.IBQueryPortFail, "os error".toList⟩ :=
  ⟨rfl, rfl⟩

/-- Witness for the amended C2: a device failure aborts with that error; a
port failure aborts; a single failing address index is dropped while the rest
of the port's addresses survive unchanged. -/
theorem enumeration_error_policy_witness :
    update_attr envDevFail cfgEmpty =
      .error ⟨.IBQueryDeviceFail, "os error".toList⟩ ∧
    (∃ e', update_attr envPortFail cfgEmpty = .error e') ∧
    collect_port_gids envAddrFail 1 paC2 cfgEmpty =
      (collect_port_gids envAddrOk 1 paC2 cfgEmpty).filter
        (fun gd => gd.index ≠ 0) := by
  refine ⟨?_, ?_, ?_⟩
  · exact (enumeration_error_policy envDevFail envDevFail cfgEmpty paC2 1 0).1
      ⟨.IBQueryDeviceFail, "os error".toList⟩ rfl
  · exact (enumeration_error_policy envPortFail envPortFail cfgEmpty paC2 1 0).2.1
      ⟨2⟩ ⟨.IBQueryPortFail, "os error".toList⟩ 1 rfl (by norm_num) (by norm_num) rfl
  · refine (enumeration_error_policy envAddrOk envAddrFail cfgEmpty paC2 1 0).2.2
      ⟨rfl, ?_, ?_, Or.inl ⟨⟨.IBQueryGidFail, "os error".toList⟩, rfl⟩⟩
    · intro j hj
      simp [envAddrFail, hj]
    · intro j hj
      rfl

/-- C8: in the end-to-end scenario (port 1 active with one native-fabric and
one RoCE-v2 link-local address, port 2 inactive; skip-inactive and
skip-link-local both set) the result holds exactly one port containing exactly
one surviving address — the native-fabric one. -/
theorem end_to_end_scenario :
    update_attr envC8 cfgC8 =
      .ok (⟨2⟩, [⟨1, ⟨IBV_PORT_ACTIVE, .InfiniBand, 2⟩,
        [⟨0, ⟨0, 72057594037927936⟩, .IB⟩]⟩]) := by
  rfl

/-- Witness for C7, instantiating the pipeline invariants on concrete runs:
skip-inactive on `envC8`/`cfgC8`, and the {RoCE-v2} address-type filter. -/
theorem filter_pipeline_invariants_witness :
    (∀ port ∈ (update_attr envC8 cfgC8).toOption.elim [] Prod.snd,
      port.port_attr.state = IBV_PORT_ACTIVE) ∧
    (∀ port ∈ (update_attr envC8 cfgRoceOnly).toOption.elim [] Prod.snd,
      ∀ g ∈ port.gids, g.gid_type ∈ cfgRoceOnly.gid_type_filter) := by
  constructor
  · have h := (filter_pipeline_invariants envC8 cfgC8
      (⟨2⟩, [⟨1, ⟨IBV_PORT_ACTIVE, .InfiniBand, 2⟩,
        [⟨0, ⟨0, 72057594037927936⟩, .IB⟩]⟩]) rfl).1 rfl
    exact h
  · have h := (filter_pipeline_invariants envC8 cfgRoceOnly
      (⟨2⟩, [⟨1, ⟨IBV_PORT_ACTIVE, .InfiniBand, 2⟩,
          [⟨1, ⟨33022, 72057594037927936⟩, .RoCEv2⟩]⟩,
        ⟨2, ⟨1, .InfiniBand, 0⟩, []⟩]) rfl).2 (by simp [cfgRoceOnly])
    exact h

/-- C6: on every exit path the protection domain is never released after the
code relies on the context being gone — dropping a `Device` deallocates the PD
strictly before closing the context (field declaration order), and when PD
allocation fails during `open`, the already-opened context is still closed
before the error is returned. -/
theorem device_release_ordering :
    (∃ pre mid post, dropDevice =
      pre ++ ResourceEv.deallocPD :: (mid ++ ResourceEv.closeDev :: post)) ∧
    openTrace true false = ([.openDev, .closeDev], false) ∧
    (openTrace true false).1.getLast? = some .closeDev :=
  ⟨⟨[], [], [], rfl⟩, rfl, rfl⟩
